import Mathlib

/-!
Verification of the CephObjectStore reconcile controller
(pkg/operator/ceph/object/controller.go, rook).

The controller's `reconcile` method is a straight-line sequence of calls to
external collaborators (the record store, the readiness gate, cluster-info
loading, finalizer management, sub-resource provisioning and teardown), each
of which may fail.  We embed the control flow shallowly: an `Env` records the
outcome each external call would produce in this invocation, and `reconcile`
replays the Go control flow over those outcomes, returning the
controller-runtime result, the returned error (with its wrapping structure),
the ordered trace of external calls performed, and the in-memory status
phase of the record at the end of the call.
-/

namespace RookObjectController

/-- Errors as produced by the Go code: either an error from a collaborator or
an `errors.Wrap(err, msg)` around one. -/
inductive Err where
  | base (msg : String)
  | wrap (msg : String) (cause : Err)
  deriving DecidableEq, Repr

/-- Status phases used by the controller: `k8sutil.Created`,
`k8sutil.ReadyStatus`, `k8sutil.ReconcileFailedStatus`. -/
inductive Phase where
  | created
  | ready
  | reconcileFailed
  deriving DecidableEq, Repr

/-- Outcome of `r.client.Get` on the CephObjectStore record:
found, IsNotFound, or another error. -/
inductive GetOutcome where
  | found
  | notFound
  | err (e : Err)
  deriving DecidableEq, Repr

/-- `reconcile.Result`: requeue flag and requeue-after delay.
`RResult.empty` is Go's zero value `reconcile.Result{}`. -/
structure RResult where
  requeue : Bool
  requeueAfterSeconds : Nat
  deriving DecidableEq, Repr

def RResult.empty : RResult := ⟨false, 0⟩

/-- One external call performed during a reconcile invocation, with whether
it succeeded.  `reconcileRealm` records the service IP it was invoked with. -/
inductive Event where
  | getRecord
  | updateStatus (p : Phase) (ok : Bool)
  | addFinalizer (ok : Bool)
  | removeFinalizer (ok : Bool)
  | loadClusterInfo (ok : Bool)
  | leastUptodateDaemonVersion (ok : Bool)
  | deleteStore (ok : Bool)
  | validateStore (ok : Bool)
  | reconcileService (ok : Bool)
  | createPools (ok : Bool)
  | reconcileRealm (serviceIP : String) (ok : Bool)
  | validateExternalVersions (ok : Bool)
  | createOrUpdateStore (ok : Bool)
  deriving DecidableEq, Repr

/-- The outcomes the external collaborators would produce during one
reconcile invocation.  `none` means the call succeeds; `some e` means it
fails with error `e`.  `initialStatus` is `none` when the record's Status is
nil (just-created CR) and `some p` when the record already carries phase
`p`.  `isReadyToReconcile`, `cephClusterExists` and `gateResponse` are the
values returned by `opcontroller.IsReadyToReconcile`. -/
structure Env where
  getOutcome : GetOutcome
  initialStatus : Option Phase
  updateStatusCreatedErr : Option Err
  isReadyToReconcile : Bool
  cephClusterExists : Bool
  gateResponse : RResult
  deletionTimestampSet : Bool
  removeFinalizerErr : Option Err
  loadClusterInfoErr : Option Err
  daemonVersionErr : Option Err
  addFinalizerErr : Option Err
  deleteStoreErr : Option Err
  validateStoreErr : Option Err
  reconcileServiceErr : Option Err
  serviceIP : String
  createPoolsErr : Option Err
  reconcileRealmErr : Option Err
  externalEnable : Bool
  validateVersionsErr : Option Err
  createOrUpdateStoreErr : Option Err
  updateStatusReadyErr : Option Err
  updateStatusFailedErr : Option Err
  deriving DecidableEq, Repr

/-- Result of one reconcile invocation: the returned `reconcile.Result` and
error, the ordered trace of external calls performed, and the in-memory
phase of the record at the end (none when the record was never fetched). -/
structure Outcome where
  result : RResult
  error : Option Err
  trace : List Event
  phase : Option Phase
  deriving DecidableEq, Repr

/-- `ReconcileCephObjectStore.setFailedStatus` (controller.go:306-314): set
Phase to ReconcileFailed, attempt to persist (a persist failure is only
logged), and return the wrapped phase error. -/
def setFailedStatus (env : Env) (tr : List Event) (errMessage : String) (e : Err) : Outcome :=
  { result := RResult.empty
    error := some (Err.wrap errMessage e)
    trace := tr ++ [Event.updateStatus Phase.reconcileFailed env.updateStatusFailedErr.isNone]
    phase := some Phase.reconcileFailed }

/-- `ReconcileCephObjectStore.reconcileCreateObjectStore`
(controller.go:276-304): when the cluster spec has external mode enabled,
first validate version compatibility between local and external clusters,
failing the call if that fails; then create or update the object store.
Returns the calls performed and the error, if any. -/
def reconcileCreateObjectStore (env : Env) : List Event × Option Err :=
  if env.externalEnable then
    match env.validateVersionsErr with
    | some e =>
      ([Event.validateExternalVersions false], some (Err.wrap "refusing to run new crd" e))
    | none =>
      match env.createOrUpdateStoreErr with
      | some e =>
        ([Event.validateExternalVersions true, Event.createOrUpdateStore false],
          some (Err.wrap "failed to create object store" e))
      | none =>
        ([Event.validateExternalVersions true, Event.createOrUpdateStore true], none)
  else
    match env.createOrUpdateStoreErr with
    | some e => ([Event.createOrUpdateStore false], some (Err.wrap "failed to create object store" e))
    | none => ([Event.createOrUpdateStore true], none)

/-- `reconcile` from the readiness gate (controller.go:162) onward.  `tr` is
the trace accumulated so far and `ph` the record's in-memory phase. -/
def reconcileFromGate (env : Env) (tr : List Event) (ph : Phase) : Outcome :=
  if env.isReadyToReconcile then
    -- controller.go:186-191: populate clusterInfo; abort on failure
    match env.loadClusterInfoErr with
    | some e =>
      { result := RResult.empty, error := some (Err.wrap "failed to populate cluster info" e)
        trace := tr ++ [Event.loadClusterInfo false], phase := some ph }
    | none =>
      -- controller.go:194-200: daemon version lookup; failure only logged
      let tr1 := tr ++ [Event.loadClusterInfo true,
        Event.leastUptodateDaemonVersion env.daemonVersionErr.isNone]
      -- controller.go:202-206: ensure finalizer before any provisioning
      match env.addFinalizerErr with
      | some e =>
        { result := RResult.empty, error := some (Err.wrap "failed to add finalizer" e)
          trace := tr1 ++ [Event.addFinalizer false], phase := some ph }
      | none =>
        let tr2 := tr1 ++ [Event.addFinalizer true]
        if env.deletionTimestampSet then
          -- controller.go:208-225: teardown, then finalizer removal
          match env.deleteStoreErr with
          | some e =>
            { result := RResult.empty, error := some (Err.wrap "failed to delete store" e)
              trace := tr2 ++ [Event.deleteStore false], phase := some ph }
          | none =>
            match env.removeFinalizerErr with
            | some e =>
              { result := RResult.empty, error := some (Err.wrap "failed to remove finalizer" e)
                trace := tr2 ++ [Event.deleteStore true, Event.removeFinalizer false]
                phase := some ph }
            | none =>
              { result := RResult.empty, error := none
                trace := tr2 ++ [Event.deleteStore true, Event.removeFinalizer true]
                phase := some ph }
        else
          -- controller.go:227-230: validate the store settings
          match env.validateStoreErr with
          | some e =>
            { result := RResult.empty, error := some (Err.wrap "invalid object store arguments" e)
              trace := tr2 ++ [Event.validateStore false], phase := some ph }
          | none =>
            let tr3 := tr2 ++ [Event.validateStore true]
            -- controller.go:232-237: reconcile service
            match env.reconcileServiceErr with
            | some e =>
              setFailedStatus env (tr3 ++ [Event.reconcileService false])
                "failed to reconcile service" e
            | none =>
              let tr4 := tr3 ++ [Event.reconcileService true]
              -- controller.go:239-247: reconcile pools
              match env.createPoolsErr with
              | some e =>
                setFailedStatus env (tr4 ++ [Event.createPools false])
                  "failed to create object pools" e
              | none =>
                let tr5 := tr4 ++ [Event.createPools true]
                -- controller.go:249-254: reconcile realm with the service IP
                match env.reconcileRealmErr with
                | some e =>
                  setFailedStatus env (tr5 ++ [Event.reconcileRealm env.serviceIP false])
                    "failed to create object store realm" e
                | none =>
                  let tr6 := tr5 ++ [Event.reconcileRealm env.serviceIP true]
                  -- controller.go:256-261: create/update the store deployments
                  let cres := reconcileCreateObjectStore env
                  match cres.2 with
                  | some e =>
                    setFailedStatus env (tr6 ++ cres.1) "failed to create object store deployments" e
                  | none =>
                    let tr7 := tr6 ++ cres.1
                    -- controller.go:263-272: set Ready status and finish
                    match env.updateStatusReadyErr with
                    | some e =>
                      { result := RResult.empty, error := some (Err.wrap "failed to set status" e)
                        trace := tr7 ++ [Event.updateStatus Phase.ready false]
                        phase := some Phase.ready }
                    | none =>
                      { result := RResult.empty, error := none
                        trace := tr7 ++ [Event.updateStatus Phase.ready true]
                        phase := some Phase.ready }
  else
    -- controller.go:163-183: not ready to reconcile
    if env.deletionTimestampSet && !env.cephClusterExists then
      match env.removeFinalizerErr with
      | some e =>
        { result := RResult.empty, error := some (Err.wrap "failed to remove finalizer" e)
          trace := tr ++ [Event.removeFinalizer false], phase := some ph }
      | none =>
        { result := RResult.empty, error := none
          trace := tr ++ [Event.removeFinalizer true], phase := some ph }
    else
      { result := env.gateResponse, error := none, trace := tr, phase := some ph }

/-- `ReconcileCephObjectStore.reconcile` (controller.go:138-274). -/
def reconcile (env : Env) : Outcome :=
  match env.getOutcome with
  | GetOutcome.notFound =>
    -- controller.go:143-146: not found, ignore
    { result := RResult.empty, error := none, trace := [Event.getRecord], phase := none }
  | GetOutcome.err e =>
    -- controller.go:147-148
    { result := RResult.empty, error := some (Err.wrap "failed to get cephObjectStore" e)
      trace := [Event.getRecord], phase := none }
  | GetOutcome.found =>
    -- controller.go:151-159: initialize status fields on a just-created CR
    match env.initialStatus with
    | none =>
      match env.updateStatusCreatedErr with
      | some e =>
        { result := RResult.empty, error := some (Err.wrap "failed to set status" e)
          trace := [Event.getRecord, Event.updateStatus Phase.created false]
          phase := some Phase.created }
      | none =>
        reconcileFromGate env [Event.getRecord, Event.updateStatus Phase.created true] Phase.created
    | some p => reconcileFromGate env [Event.getRecord] p

/-- An event that is a status or finalizer write that failed. -/
def Event.isFailedWrite : Event → Bool
  | Event.updateStatus _ ok => !ok
  | Event.addFinalizer ok => !ok
  | Event.removeFinalizer ok => !ok
  | _ => false

/-- Whether a trace contains a failed status or finalizer write. -/
def hasFailedWrite (l : List Event) : Bool := l.any Event.isFailedWrite

/-- A fully-successful environment, used as the base point for concrete
evaluations. -/
def envOk : Env :=
  { getOutcome := GetOutcome.found
    initialStatus := some Phase.created
    updateStatusCreatedErr := none
    isReadyToReconcile := true
    cephClusterExists := true
    gateResponse := ⟨false, 10⟩
    deletionTimestampSet := false
    removeFinalizerErr := none
    loadClusterInfoErr := none
    daemonVersionErr := none
    addFinalizerErr := none
    deleteStoreErr := none
    validateStoreErr := none
    reconcileServiceErr := none
    serviceIP := "10.0.0.1"
    createPoolsErr := none
    reconcileRealmErr := none
    externalEnable := false
    validateVersionsErr := none
    createOrUpdateStoreErr := none
    updateStatusReadyErr := none
    updateStatusFailedErr := none }

/-- Environment where fetching the record fails with a non-not-found error. -/
def envGetErr : Env := { envOk with getOutcome := GetOutcome.err (Err.base "boom") }

/-- Environment for a deletion reconcile on a ready cluster. -/
def envDelete : Env := { envOk with deletionTimestampSet := true }

/-- Environment where spec validation fails. -/
def envBadSpec : Env := { envOk with validateStoreErr := some (Err.base "bad spec") }

/-- Environment where the realm phase fails. -/
def envRealmFail : Env := { envOk with reconcileRealmErr := some (Err.base "realm down") }

/-- Environment for deletion while the prerequisite cluster is gone. -/
def envClusterGone : Env :=
  { envOk with isReadyToReconcile := false, cephClusterExists := false,
               deletionTimestampSet := true }

/-- Environment where the prerequisite cluster exists but is not ready. -/
def envNotReady : Env := { envOk with isReadyToReconcile := false }

/-- Environment where adding the finalizer fails. -/
def envAddFinalizerFail : Env := { envOk with addFinalizerErr := some (Err.base "write lost") }

/-- Environment where the daemon-version lookup fails (only logged). -/
def envVersionFail : Env := { envOk with daemonVersionErr := some (Err.base "version unknown") }

/-- Environment in external mode with incompatible external cluster version. -/
def envExternalBad : Env :=
  { envOk with externalEnable := true, validateVersionsErr := some (Err.base "major mismatch") }

/-- The record-fetch and status-initialization part of `reconcile`
succeeded: either the record already had a status, or persisting the
initial `Created` status succeeds. -/
def initOk (env : Env) : Prop := env.initialStatus = none → env.updateStatusCreatedErr = none

/-- The trace accumulated before the readiness gate on a found record. -/
def initTraceOf (env : Env) : List Event :=
  match env.initialStatus with
  | none => [Event.getRecord, Event.updateStatus Phase.created true]
  | some _ => [Event.getRecord]

/-- The record's in-memory phase when reaching the readiness gate. -/
def initPhaseOf (env : Env) : Phase :=
  match env.initialStatus with
  | none => Phase.created
  | some p => p

end RookObjectController

namespace RookObjectController

/-- On a found record whose status initialization succeeds (or was not
needed), `reconcile` proceeds to the readiness gate with the initial trace
and phase. -/
theorem reconcile_found (env : Env) (hg : env.getOutcome = GetOutcome.found)
    (hi : initOk env) :
    reconcile env = reconcileFromGate env (initTraceOf env) (initPhaseOf env) := by
  rcases hIS : env.initialStatus with _ | p
  · have h2 := hi hIS
    simp [reconcile, hg, hIS, h2, initTraceOf, initPhaseOf]
  · simp [reconcile, hg, hIS, initTraceOf, initPhaseOf]

/-- The pre-gate trace only contains the record fetch and (possibly) the
successful initial status write. -/
theorem initTraceOf_mem (env : Env) (e : Event) (h : e ∈ initTraceOf env) :
    e = Event.getRecord ∨ e = Event.updateStatus Phase.created true := by
  rcases hIS : env.initialStatus with _ | p <;> simp [initTraceOf, hIS] at h <;> tauto

/-- `reconcileFromGate` only appends to the accumulated trace. -/
theorem fromGate_trace_extends (env : Env) (tr : List Event) (ph : Phase) :
    ∃ l, (reconcileFromGate env tr ph).trace = tr ++ l := by
  simp only [reconcileFromGate, setFailedStatus]
  repeat' split
  all_goals
    first
      | (refine ⟨[], ?_⟩; simp; done)
      | (simp only [List.append_assoc]; exact ⟨_, rfl⟩)

theorem hasFailedWrite_nil : hasFailedWrite [] = false := rfl

theorem hasFailedWrite_append (a b : List Event) :
    hasFailedWrite (a ++ b) = (hasFailedWrite a || hasFailedWrite b) := by
  simp [hasFailedWrite]

theorem hasFailedWrite_cons (e : Event) (l : List Event) :
    hasFailedWrite (e :: l) = (e.isFailedWrite || hasFailedWrite l) := by
  simp [hasFailedWrite]

/-- The create/update sub-call never performs a status or finalizer write. -/
theorem createTrace_clean (env : Env) :
    hasFailedWrite (reconcileCreateObjectStore env).1 = false := by
  simp only [reconcileCreateObjectStore]
  repeat' split
  all_goals simp [hasFailedWrite, Event.isFailedWrite]

/-- When `reconcileFromGate` returns a nil error, it has not performed any
failed status or finalizer write beyond those already in `tr`. -/
theorem fromGate_clean (env : Env) (tr : List Event) (ph : Phase)
    (h : (reconcileFromGate env tr ph).error = none) :
    hasFailedWrite (reconcileFromGate env tr ph).trace = hasFailedWrite tr := by
  revert h
  simp only [reconcileFromGate, setFailedStatus]
  repeat' split
  all_goals intro h
  all_goals
    first
      | (simp at h; done)
      | simp [hasFailedWrite_append, hasFailedWrite_cons, hasFailedWrite_nil,
          Event.isFailedWrite, createTrace_clean env]

/-- Claim C10: if fetching the record fails with an error other than
not-found, reconcile returns a wrapped error immediately, performing no
status write, no finalizer mutation and no provisioning or teardown (the
trace holds only the fetch); if the record is not found, reconcile returns
done with no error. -/
theorem c10_fetch_failure (env : Env) :
    (∀ e : Err, env.getOutcome = GetOutcome.err e →
      reconcile env =
        { result := RResult.empty
          error := some (Err.wrap "failed to get cephObjectStore" e)
          trace := [Event.getRecord], phase := none }) ∧
    (env.getOutcome = GetOutcome.notFound →
      reconcile env =
        { result := RResult.empty, error := none
          trace := [Event.getRecord], phase := none }) := by
  constructor
  · intro e hg
    simp [reconcile, hg]
  · intro hg
    simp [reconcile, hg]

end RookObjectController

namespace RookObjectController

/-- Claim C5: when the readiness gate reports the prerequisite cluster not
ready and the skip-cleanup condition (deletion-timestamp set and cluster
gone) does not apply, no creation/update phase and no teardown executes,
and the call returns the gate's requeue result with a nil error. -/
theorem c5_gate_precedence (env : Env)
    (hg : env.getOutcome = GetOutcome.found) (hi : initOk env)
    (hready : env.isReadyToReconcile = false)
    (hskip : env.deletionTimestampSet = false ∨ env.cephClusterExists = true) :
    (reconcile env).result = env.gateResponse ∧ (reconcile env).error = none ∧
    ∀ e ∈ (reconcile env).trace,
      e = Event.getRecord ∨ e = Event.updateStatus Phase.created true := by
  rw [reconcile_found env hg hi]
  have hcond : (env.deletionTimestampSet && !env.cephClusterExists) = false := by
    rcases hskip with h | h <;> simp [h]
  simp only [reconcileFromGate, hready, hcond, Bool.false_eq_true, if_false]
  refine ⟨by trivial, by trivial, fun e he => initTraceOf_mem env e he⟩

/-- Witness for C5 at a concrete not-ready environment. -/
theorem c5_witness :
    (reconcile envNotReady).result = envNotReady.gateResponse ∧
    (reconcile envNotReady).error = none ∧
    ∀ e ∈ (reconcile envNotReady).trace,
      e = Event.getRecord ∨ e = Event.updateStatus Phase.created true :=
  c5_gate_precedence envNotReady rfl (fun h => Option.noConfusion h) rfl (Or.inl rfl)

/-- Claim C3: on a record with a deletion-timestamp set whose prerequisite
cluster does not exist (hence the gate reports not ready), reconcile
removes the finalizer and returns done with no error, invoking no
sub-resource teardown or provisioning interface. -/
theorem c3_skip_cleanup (env : Env)
    (hg : env.getOutcome = GetOutcome.found) (hi : initOk env)
    (hready : env.isReadyToReconcile = false)
    (hdel : env.deletionTimestampSet = true)
    (hex : env.cephClusterExists = false)
    (hrf : env.removeFinalizerErr = none) :
    (reconcile env).result = RResult.empty ∧ (reconcile env).error = none ∧
    Event.removeFinalizer true ∈ (reconcile env).trace ∧
    ∀ e ∈ (reconcile env).trace,
      e = Event.getRecord ∨ e = Event.updateStatus Phase.created true ∨
        e = Event.removeFinalizer true := by
  rw [reconcile_found env hg hi]
  simp only [reconcileFromGate, hready, hdel, hex, hrf, Bool.false_eq_true, if_false,
    Bool.not_false, Bool.and_true, if_true]
  refine ⟨by trivial, by trivial, by simp, fun e he => ?_⟩
  rw [List.mem_append] at he
  rcases he with he | he
  · rcases initTraceOf_mem env e he with h | h
    · exact Or.inl h
    · exact Or.inr (Or.inl h)
  · simp at he
    exact Or.inr (Or.inr he)

/-- Witness for C3 at a concrete deletion-with-cluster-gone environment. -/
theorem c3_witness :
    (reconcile envClusterGone).result = RResult.empty ∧
    (reconcile envClusterGone).error = none ∧
    Event.removeFinalizer true ∈ (reconcile envClusterGone).trace ∧
    ∀ e ∈ (reconcile envClusterGone).trace,
      e = Event.getRecord ∨ e = Event.updateStatus Phase.created true ∨
        e = Event.removeFinalizer true :=
  c3_skip_cleanup envClusterGone rfl (fun h => Option.noConfusion h) rfl rfl rfl rfl

/-- Claim C7: every failure of a status or finalizer write during a
reconcile call is propagated to the caller as a non-nil returned error. -/
theorem c7_write_failure_propagates (env : Env) (e : Event)
    (hmem : e ∈ (reconcile env).trace) (hfw : e.isFailedWrite = true) :
    (reconcile env).error ≠ none := by
  intro herr
  have hfwt : hasFailedWrite (reconcile env).trace = true := by
    simp only [hasFailedWrite, List.any_eq_true]
    exact ⟨e, hmem, hfw⟩
  rcases hg : env.getOutcome with _ | _ | e0
  · rcases hIS : env.initialStatus with _ | p
    · rcases husc : env.updateStatusCreatedErr with _ | e1
      · have heq : reconcile env =
            reconcileFromGate env [Event.getRecord, Event.updateStatus Phase.created true]
              Phase.created := by
          simp [reconcile, hg, hIS, husc]
        rw [heq] at hfwt herr
        rw [fromGate_clean env _ _ herr] at hfwt
        simp [hasFailedWrite, Event.isFailedWrite] at hfwt
      · simp [reconcile, hg, hIS, husc] at herr
    · have heq : reconcile env = reconcileFromGate env [Event.getRecord] p := by
        simp [reconcile, hg, hIS]
      rw [heq] at hfwt herr
      rw [fromGate_clean env _ _ herr] at hfwt
      simp [hasFailedWrite, Event.isFailedWrite] at hfwt
  · simp [reconcile, hg, hasFailedWrite, Event.isFailedWrite] at hfwt
  · simp [reconcile, hg] at herr

/-- Witness for C7: a failed finalizer-add write yields a non-nil error. -/
theorem c7_witness : (reconcile envAddFinalizerFail).error ≠ none :=
  c7_write_failure_propagates envAddFinalizerFail (Event.addFinalizer false)
    (by decide) (by decide)

end RookObjectController

namespace RookObjectController

/-- Witness for C10 at a concrete failing fetch. -/
theorem c10_witness :
    reconcile envGetErr =
      { result := RResult.empty
        error := some (Err.wrap "failed to get cephObjectStore" (Err.base "boom"))
        trace := [Event.getRecord], phase := none } :=
  (c10_fetch_failure envGetErr).1 (Err.base "boom") rfl

/-- Claim C1: on a deletion reconcile with the prerequisite cluster ready
(cluster info loaded and finalizer ensured), sub-resource teardown runs
before finalizer removal: a teardown failure returns an error with no
finalizer removal performed, and after successful teardown the finalizer is
removed and the call returns done with no requeue and no error. -/
theorem c1_teardown_before_finalizer (env : Env)
    (hg : env.getOutcome = GetOutcome.found) (hi : initOk env)
    (hready : env.isReadyToReconcile = true)
    (hdel : env.deletionTimestampSet = true)
    (hci : env.loadClusterInfoErr = none)
    (haf : env.addFinalizerErr = none) :
    (∀ e, env.deleteStoreErr = some e →
      (reconcile env).error = some (Err.wrap "failed to delete store" e) ∧
      ∀ ok, Event.removeFinalizer ok ∉ (reconcile env).trace) ∧
    (env.deleteStoreErr = none → env.removeFinalizerErr = none →
      (reconcile env).error = none ∧ (reconcile env).result = RResult.empty ∧
      ∃ l, (reconcile env).trace =
        l ++ [Event.deleteStore true, Event.removeFinalizer true]) := by
  rw [reconcile_found env hg hi]
  constructor
  · intro e hds
    simp [reconcileFromGate, hready, hdel, hci, haf, hds]
    refine ⟨fun h => ?_, fun h => ?_⟩ <;>
      rcases initTraceOf_mem env _ h with h1 | h1 <;> simp at h1
  · intro hds hrf
    simp only [reconcileFromGate, hready, hdel, hci, haf, hds, hrf]
    refine ⟨by trivial, by trivial,
      initTraceOf env ++ [Event.loadClusterInfo true,
        Event.leastUptodateDaemonVersion env.daemonVersionErr.isNone,
        Event.addFinalizer true], ?_⟩
    simp [List.append_assoc]

/-- Witness for C1 on the successful-teardown branch. -/
theorem c1_witness :
    (reconcile envDelete).error = none ∧ (reconcile envDelete).result = RResult.empty ∧
    ∃ l, (reconcile envDelete).trace =
      l ++ [Event.deleteStore true, Event.removeFinalizer true] :=
  (c1_teardown_before_finalizer envDelete rfl (fun h => Option.noConfusion h)
    rfl rfl rfl rfl).2 rfl rfl

/-- On a ready path with cluster info loaded, the daemon-version lookup and
the finalizer-add both take place, whatever happens downstream. -/
theorem fromGate_ready_events (env : Env) (tr : List Event) (ph : Phase)
    (hready : env.isReadyToReconcile = true) (hci : env.loadClusterInfoErr = none) :
    Event.leastUptodateDaemonVersion env.daemonVersionErr.isNone ∈
      (reconcileFromGate env tr ph).trace ∧
    Event.addFinalizer env.addFinalizerErr.isNone ∈ (reconcileFromGate env tr ph).trace := by
  simp only [reconcileFromGate, setFailedStatus, hready, hci, if_true]
  repeat' split
  all_goals simp_all

/-- Claim C8: on the ready path, a ClusterInfo load failure aborts the call
with a wrapped error before the finalizer step, whereas a daemon-version
lookup failure is only logged and the call continues to the remaining
steps. -/
theorem c8_cluster_info (env : Env)
    (hg : env.getOutcome = GetOutcome.found) (hi : initOk env)
    (hready : env.isReadyToReconcile = true) :
    (∀ e, env.loadClusterInfoErr = some e →
      (reconcile env).error = some (Err.wrap "failed to populate cluster info" e) ∧
      ∀ ok, Event.addFinalizer ok ∉ (reconcile env).trace) ∧
    (∀ e, env.loadClusterInfoErr = none → env.daemonVersionErr = some e →
      Event.leastUptodateDaemonVersion false ∈ (reconcile env).trace ∧
      ∃ ok, Event.addFinalizer ok ∈ (reconcile env).trace) := by
  rw [reconcile_found env hg hi]
  constructor
  · intro e hci
    simp [reconcileFromGate, hready, hci]
    refine ⟨fun h => ?_, fun h => ?_⟩ <;>
      rcases initTraceOf_mem env _ h with h1 | h1 <;> simp at h1
  · intro e hci hdv
    have h2 := fromGate_ready_events env (initTraceOf env) (initPhaseOf env) hready hci
    rw [hdv] at h2
    simp only [Option.isNone_some] at h2
    exact ⟨h2.1, _, h2.2⟩

/-- Witness for C8: a daemon-version failure is logged and the call goes on. -/
theorem c8_witness :
    Event.leastUptodateDaemonVersion false ∈ (reconcile envVersionFail).trace ∧
    ∃ ok, Event.addFinalizer ok ∈ (reconcile envVersionFail).trace :=
  (c8_cluster_info envVersionFail rfl (fun h => Option.noConfusion h) rfl).2
    (Err.base "version unknown") rfl rfl

/-- Claim C9: in external mode, the workload phase first validates version
compatibility between local and external clusters, returning an error
before any create/update of the workload when validation fails; when
external mode is disabled no such validation runs. -/
theorem c9_external_validation (env : Env) :
    (env.externalEnable = true → ∀ e, env.validateVersionsErr = some e →
      (reconcileCreateObjectStore env).2 = some (Err.wrap "refusing to run new crd" e) ∧
      ∀ ok, Event.createOrUpdateStore ok ∉ (reconcileCreateObjectStore env).1) ∧
    (env.externalEnable = true → env.validateVersionsErr = none →
      ∃ l, (reconcileCreateObjectStore env).1 = [Event.validateExternalVersions true] ++ l) ∧
    (env.externalEnable = false →
      ∀ ok, Event.validateExternalVersions ok ∉ (reconcileCreateObjectStore env).1) := by
  refine ⟨?_, ?_, ?_⟩
  · intro he e hv
    simp [reconcileCreateObjectStore, he, hv]
  · intro he hv
    rcases hc : env.createOrUpdateStoreErr with _ | e
    · exact ⟨[Event.createOrUpdateStore true], by simp [reconcileCreateObjectStore, he, hv, hc]⟩
    · exact ⟨[Event.createOrUpdateStore false], by simp [reconcileCreateObjectStore, he, hv, hc]⟩
  · intro he
    rcases hc : env.createOrUpdateStoreErr with _ | e <;>
      simp [reconcileCreateObjectStore, he, hc]

/-- Witness for C9: incompatible external version refuses the workload. -/
theorem c9_witness :
    (reconcileCreateObjectStore envExternalBad).2 =
      some (Err.wrap "refusing to run new crd" (Err.base "major mismatch")) ∧
    ∀ ok, Event.createOrUpdateStore ok ∉ (reconcileCreateObjectStore envExternalBad).1 :=
  (c9_external_validation envExternalBad).1 rfl (Err.base "major mismatch") rfl

/-- Claim C6: when all creation/update phases succeed, Phase is set to
Ready and persisted and the call returns done with a nil error; if
persisting the Ready status fails, the call returns an error. -/
theorem c6_ready_status (env : Env)
    (hg : env.getOutcome = GetOutcome.found) (hi : initOk env)
    (hready : env.isReadyToReconcile = true)
    (hdel : env.deletionTimestampSet = false)
    (hci : env.loadClusterInfoErr = none)
    (haf : env.addFinalizerErr = none)
    (hvs : env.validateStoreErr = none)
    (hsvc : env.reconcileServiceErr = none)
    (hcp : env.createPoolsErr = none)
    (hrr : env.reconcileRealmErr = none)
    (hcr : (reconcileCreateObjectStore env).2 = none) :
    (env.updateStatusReadyErr = none →
      (reconcile env).phase = some Phase.ready ∧
      Event.updateStatus Phase.ready true ∈ (reconcile env).trace ∧
      (reconcile env).result = RResult.empty ∧ (reconcile env).error = none) ∧
    (∀ e, env.updateStatusReadyErr = some e →
      (reconcile env).error = some (Err.wrap "failed to set status" e)) := by
  rw [reconcile_found env hg hi]
  constructor
  · intro husr
    simp [reconcileFromGate, hready, hdel, hci, haf, hvs, hsvc, hcp, hrr, hcr, husr]
  · intro e husr
    simp [reconcileFromGate, hready, hdel, hci, haf, hvs, hsvc, hcp, hrr, hcr, husr]

/-- Witness for C6 at the all-success environment. -/
theorem c6_witness :
    (reconcile envOk).phase = some Phase.ready ∧
    Event.updateStatus Phase.ready true ∈ (reconcile envOk).trace ∧
    (reconcile envOk).result = RResult.empty ∧ (reconcile envOk).error = none :=
  (c6_ready_status envOk rfl (fun h => Option.noConfusion h)
    rfl rfl rfl rfl rfl rfl rfl rfl rfl).1 rfl

end RookObjectController

namespace RookObjectController

/-- A successful create/update sub-call ends with the actual workload
create/update. -/
theorem createTrace_success (env : Env) (h : (reconcileCreateObjectStore env).2 = none) :
    ∃ m, (reconcileCreateObjectStore env).1 = m ++ [Event.createOrUpdateStore true] := by
  revert h
  simp only [reconcileCreateObjectStore]
  repeat' split
  all_goals intro h
  all_goals
    first
      | (simp at h; done)
      | exact ⟨[Event.validateExternalVersions true], rfl⟩
      | exact ⟨[], rfl⟩

/-- Claim C4: on the creation/update path the phases run in the fixed
order service, pools, realm, workload, each phase only after every earlier
phase succeeded, and the realm phase is invoked with the service IP the
service phase produced.  Each conjunct pins the exact call trace. -/
theorem c4_phase_order (env : Env)
    (hg : env.getOutcome = GetOutcome.found) (hi : initOk env)
    (hready : env.isReadyToReconcile = true)
    (hdel : env.deletionTimestampSet = false)
    (hci : env.loadClusterInfoErr = none)
    (haf : env.addFinalizerErr = none)
    (hvs : env.validateStoreErr = none) :
    (env.reconcileServiceErr = none → env.createPoolsErr = none →
      env.reconcileRealmErr = none → (reconcileCreateObjectStore env).2 = none →
      (reconcile env).trace =
        initTraceOf env ++ [Event.loadClusterInfo true,
          Event.leastUptodateDaemonVersion env.daemonVersionErr.isNone,
          Event.addFinalizer true, Event.validateStore true,
          Event.reconcileService true, Event.createPools true,
          Event.reconcileRealm env.serviceIP true] ++
        (reconcileCreateObjectStore env).1 ++
        [Event.updateStatus Phase.ready env.updateStatusReadyErr.isNone]) ∧
    (∀ e, env.reconcileServiceErr = some e →
      (reconcile env).trace =
        initTraceOf env ++ [Event.loadClusterInfo true,
          Event.leastUptodateDaemonVersion env.daemonVersionErr.isNone,
          Event.addFinalizer true, Event.validateStore true,
          Event.reconcileService false,
          Event.updateStatus Phase.reconcileFailed env.updateStatusFailedErr.isNone]) ∧
    (∀ e, env.reconcileServiceErr = none → env.createPoolsErr = some e →
      (reconcile env).trace =
        initTraceOf env ++ [Event.loadClusterInfo true,
          Event.leastUptodateDaemonVersion env.daemonVersionErr.isNone,
          Event.addFinalizer true, Event.validateStore true,
          Event.reconcileService true, Event.createPools false,
          Event.updateStatus Phase.reconcileFailed env.updateStatusFailedErr.isNone]) ∧
    (∀ e, env.reconcileServiceErr = none → env.createPoolsErr = none →
      env.reconcileRealmErr = some e →
      (reconcile env).trace =
        initTraceOf env ++ [Event.loadClusterInfo true,
          Event.leastUptodateDaemonVersion env.daemonVersionErr.isNone,
          Event.addFinalizer true, Event.validateStore true,
          Event.reconcileService true, Event.createPools true,
          Event.reconcileRealm env.serviceIP false,
          Event.updateStatus Phase.reconcileFailed env.updateStatusFailedErr.isNone]) := by
  rw [reconcile_found env hg hi]
  refine ⟨?_, ?_, ?_, ?_⟩
  · intro hsvc hcp hrr hcr
    rcases husr : env.updateStatusReadyErr with _ | e <;>
      simp [reconcileFromGate, hready, hdel, hci, haf, hvs, hsvc, hcp, hrr, hcr, husr,
        List.append_assoc]
  · intro e hsvc
    simp [reconcileFromGate, setFailedStatus, hready, hdel, hci, haf, hvs, hsvc,
      List.append_assoc]
  · intro e hsvc hcp
    simp [reconcileFromGate, setFailedStatus, hready, hdel, hci, haf, hvs, hsvc, hcp,
      List.append_assoc]
  · intro e hsvc hcp hrr
    simp [reconcileFromGate, setFailedStatus, hready, hdel, hci, haf, hvs, hsvc, hcp, hrr,
      List.append_assoc]

/-- Witness for C4 at the all-success environment. -/
theorem c4_witness :
    (reconcile envOk).trace =
      initTraceOf envOk ++ [Event.loadClusterInfo true,
        Event.leastUptodateDaemonVersion envOk.daemonVersionErr.isNone,
        Event.addFinalizer true, Event.validateStore true,
        Event.reconcileService true, Event.createPools true,
        Event.reconcileRealm envOk.serviceIP true] ++
      (reconcileCreateObjectStore envOk).1 ++
      [Event.updateStatus Phase.ready envOk.updateStatusReadyErr.isNone] :=
  (c4_phase_order envOk rfl (fun h => Option.noConfusion h)
    rfl rfl rfl rfl rfl).1 rfl rfl rfl rfl

end RookObjectController

namespace RookObjectController

/-- Counterexample to Claim C2 as stated: when the spec-validation phase
fails, the call aborts with a wrapped error, but the record's Phase is NOT
set to ReconcileFailed and no ReconcileFailed status write is attempted
(controller.go:228-230 returns before any setFailedStatus call). -/
theorem c2_counterexample :
    Event.validateStore false ∈ (reconcile envBadSpec).trace ∧
    (reconcile envBadSpec).error =
      some (Err.wrap "invalid object store arguments" (Err.base "bad spec")) ∧
    (reconcile envBadSpec).phase = some Phase.created ∧
    ∀ b, Event.updateStatus Phase.reconcileFailed b ∉ (reconcile envBadSpec).trace := by
  refine ⟨by decide, by decide, by decide, by decide⟩

/-- Claim C2 (amended): a failure of the service, pools, realm or workload
phase aborts the call, sets Phase to ReconcileFailed, persists that status
and returns a non-nil error wrapping the phase failure; a spec-validation
failure aborts the call with a non-nil wrapped error but leaves the phase
unchanged and attempts no ReconcileFailed status write. -/
theorem c2_phase_failure_handling (env : Env)
    (hg : env.getOutcome = GetOutcome.found) (hi : initOk env)
    (hready : env.isReadyToReconcile = true)
    (hdel : env.deletionTimestampSet = false)
    (hci : env.loadClusterInfoErr = none)
    (haf : env.addFinalizerErr = none)
    (husf : env.updateStatusFailedErr = none) :
    (∀ e, env.validateStoreErr = some e →
      (reconcile env).error = some (Err.wrap "invalid object store arguments" e) ∧
      (reconcile env).phase = some (initPhaseOf env) ∧
      ∀ b, Event.updateStatus Phase.reconcileFailed b ∉ (reconcile env).trace) ∧
    (∀ e, env.validateStoreErr = none → env.reconcileServiceErr = some e →
      (reconcile env).error = some (Err.wrap "failed to reconcile service" e) ∧
      (reconcile env).phase = some Phase.reconcileFailed ∧
      Event.updateStatus Phase.reconcileFailed true ∈ (reconcile env).trace) ∧
    (∀ e, env.validateStoreErr = none → env.reconcileServiceErr = none →
      env.createPoolsErr = some e →
      (reconcile env).error = some (Err.wrap "failed to create object pools" e) ∧
      (reconcile env).phase = some Phase.reconcileFailed ∧
      Event.updateStatus Phase.reconcileFailed true ∈ (reconcile env).trace) ∧
    (∀ e, env.validateStoreErr = none → env.reconcileServiceErr = none →
      env.createPoolsErr = none → env.reconcileRealmErr = some e →
      (reconcile env).error = some (Err.wrap "failed to create object store realm" e) ∧
      (reconcile env).phase = some Phase.reconcileFailed ∧
      Event.updateStatus Phase.reconcileFailed true ∈ (reconcile env).trace) ∧
    (∀ e, env.validateStoreErr = none → env.reconcileServiceErr = none →
      env.createPoolsErr = none → env.reconcileRealmErr = none →
      (reconcileCreateObjectStore env).2 = some e →
      (reconcile env).error =
        some (Err.wrap "failed to create object store deployments" e) ∧
      (reconcile env).phase = some Phase.reconcileFailed ∧
      Event.updateStatus Phase.reconcileFailed true ∈ (reconcile env).trace) := by
  rw [reconcile_found env hg hi]
  refine ⟨?_, ?_, ?_, ?_, ?_⟩
  · intro e hvs
    simp [reconcileFromGate, hready, hdel, hci, haf, hvs]
    refine ⟨fun h => ?_, fun h => ?_⟩ <;>
      rcases initTraceOf_mem env _ h with h1 | h1 <;> simp at h1
  · intro e hvs hsvc
    simp [reconcileFromGate, setFailedStatus, hready, hdel, hci, haf, hvs, hsvc, husf]
  · intro e hvs hsvc hcp
    simp [reconcileFromGate, setFailedStatus, hready, hdel, hci, haf, hvs, hsvc, hcp, husf]
  · intro e hvs hsvc hcp hrr
    simp [reconcileFromGate, setFailedStatus, hready, hdel, hci, haf, hvs, hsvc, hcp, hrr,
      husf]
  · intro e hvs hsvc hcp hrr hcr
    simp [reconcileFromGate, setFailedStatus, hready, hdel, hci, haf, hvs, hsvc, hcp, hrr,
      hcr, husf]

/-- Witness for C2 (amended) at a concrete realm failure. -/
theorem c2_witness :
    (reconcile envRealmFail).error =
      some (Err.wrap "failed to create object store realm" (Err.base "realm down")) ∧
    (reconcile envRealmFail).phase = some Phase.reconcileFailed ∧
    Event.updateStatus Phase.reconcileFailed true ∈ (reconcile envRealmFail).trace :=
  (c2_phase_failure_handling envRealmFail rfl (fun h => Option.noConfusion h)
    rfl rfl rfl rfl rfl).2.2.2.1 (Err.base "realm down") rfl rfl rfl rfl

end RookObjectController
